import Mathlib

/-!
Shallow embedding of the cross-filter dashboard engine of app.py /
app_comment.py (the two files are near-identical; line references below are
to app.py).

Numeric scores and weights are modelled as rationals; Python float
formatting (f-strings with .2f / .1f) is modelled as exact decimal rounding
of the rational value.  None of the concrete values appearing in the claims
are rounding ties, so the tie-breaking mode is irrelevant to every theorem
below.
-/

namespace Dashboard

/-- get_grade (app.py lines 46-52): map a numeric score to a letter grade. -/
def get_grade (score : ℚ) : String :=
  if score > 84 then "A"
  else if score > 74 then "B"
  else if score > 64 then "C"
  else if score > 54 then "D"
  else "F"

/-- One row of the flattened Fact Table df (after the star-schema merges of
app.py lines 13-40): student id, grade level, subject name, the two derived
time labels YearQuarterConcat / YearMonthConcat, score and weight. -/
structure Row where
  studentId : Nat
  gradeLevel : String
  subjectName : String
  quarterLabel : String
  monthLabel : String
  score : ℚ
  weight : ℚ
deriving DecidableEq

/-- WeightedScore column (app.py line 40): Score * Weight. -/
def weightedScore (r : Row) : ℚ := r.score * r.weight

/-- PassedScore column (app.py line 43): "Pass" iff score >= 55. -/
def passedScore (r : Row) : String := if r.score ≥ 55 then "Pass" else "Fail"

/-- df[Score].max() as used at app.py line 210.  For a nonempty table this
exceeds 1 exactly when the true maximum does; for the empty table pandas
yields NaN and NaN > 1.0 is False, matching the default 0 here. -/
def dfScoreMax (rows : List Row) : ℚ :=
  rows.foldr (fun r m => max r.score m) 0

/-- The global filter state dict (app.py lines 71-77). -/
structure FState where
  grade : String
  level : String
  time : String
  subject : String
  view_mode : String
deriving DecidableEq

/-- Initial state: all filters "All", view mode Quarter. -/
def initState : FState :=
  { grade := "All", level := "All", time := "All", subject := "All",
    view_mode := "Quarter" }

/-- get_data (app.py lines 79-106): filter a copy of the Fact Table by the
current state, skipping each dimension whose ignore flag is set.  The
Assessment_Grade and PassedScore columns are pure functions of Score,
computed once at load (spec section 3 invariant), so they are recomputed
here from the score field. -/
def get_data (table : List Row) (s : FState)
    (ignore_grade ignore_level ignore_time ignore_subject : Bool) : List Row :=
  let d := table
  let d := if ignore_grade = false ∧ s.grade ≠ "All" then
      d.filter (fun r => get_grade r.score == s.grade) else d
  let d := if ignore_level = false ∧ s.level ≠ "All" then
      d.filter (fun r => r.gradeLevel == s.level) else d
  let d := if ignore_subject = false ∧ s.subject ≠ "All" then
      d.filter (fun r => r.subjectName == s.subject) else d
  let d := if ignore_time = false ∧ s.time ≠ "All" then
      (if s.time.contains 'Q' then d.filter (fun r => r.quarterLabel == s.time)
       else d.filter (fun r => r.monthLabel == s.time)) else d
  d

/-- Two-digit zero padding for the fractional part of a formatted number. -/
def pad2 (n : ℤ) : String := if n < 10 then "0" ++ toString n else toString n

/-- Python f-string .2f formatting of a (nonnegative) rational value. -/
def fmt2 (q : ℚ) : String :=
  let n : ℤ := round (q * 100)
  toString (n / 100) ++ "." ++ pad2 (n % 100)

/-- Python f-string .1f formatting of a (nonnegative) rational value. -/
def fmt1 (q : ℚ) : String :=
  let n : ℤ := round (q * 10)
  toString (n / 10) ++ "." ++ toString (n % 10)

/-- The KPI block of update_dashboard (app.py lines 192-212): the four
displayed strings (avg score, weighted avg, pass rate, perfect rate), with
the empty-view guard of lines 193-198. -/
def render_kpis (table : List Row) (s : FState) :
    String × String × String × String :=
  let d := get_data table s false false false false
  if d = [] then ("0.00", "0.00%", "0.00%", "0.0%")
  else
    let n : ℚ := d.length
    let avg := (d.map (·.score)).sum / n
    let w_sum := (d.map (·.weight)).sum
    let val_w := if w_sum > 0 then (d.map weightedScore).sum / w_sum else 0
    let w_disp := if val_w ≤ 1 then val_w * 100 else val_w
    let pass_rate := ((d.filter (fun r => passedScore r == "Pass")).length : ℚ) / n * 100
    let target : ℚ := if dfScoreMax table > 1 then 100 else 1
    let perfect_rate := ((d.filter (fun r => r.score == target)).length : ℚ) / n * 100
    (fmt2 avg, fmt2 w_disp ++ "%", fmt2 pass_rate ++ "%", fmt1 perfect_rate ++ "%")

/-- Grade-distribution bucket count (app.py lines 215-218): rows of the
view ignoring the grade filter whose letter grade is g. -/
def gradeDistCount (table : List Row) (s : FState) (g : String) : ℕ :=
  ((get_data table s true false false false).filter
    (fun r => get_grade r.score == g)).length

/-- The row set displayed by the time chart (app.py lines 251-264): the view
ignoring the time filter, further restricted by the drill-down context when
in Month mode (quarter-shaped timeFilter restricts directly; month-shaped
timeFilter restricts to the parent quarter of the first matching Fact Table
row, or fails open when no row matches). -/
def render_time_rows (table : List Row) (s : FState) : List Row :=
  let d := get_data table s false false true false
  if s.view_mode = "Month" then
    if s.time ≠ "All" ∧ s.time.contains 'Q' = true then
      d.filter (fun r => r.quarterLabel == s.time)
    else if s.time ≠ "All" ∧ s.time.contains '-' = true then
      match table.find? (fun r => r.monthLabel == s.time) with
      | some m => d.filter (fun r => r.quarterLabel == m.quarterLabel)
      | none => d
    else d
  else d

/-- Shape of an incoming plotly click payload, as inspected by the guard
`if e.args and points in e.args` of every handler: falsy args, a dict
without a points key, or a points list whose entries carry the clicked
category label (the label / x field). -/
inductive EvtArgs where
  | empty : EvtArgs
  | noPoints : EvtArgs
  | points : List String → EvtArgs
deriving DecidableEq

/-- Toggle core of handle_click_grade (app.py line 334). -/
def clickGradeCore (s : FState) (clicked : String) : FState :=
  { s with grade := if s.grade = clicked then "All" else clicked }

/-- Toggle core of handle_click_level (app.py line 340). -/
def clickLevelCore (s : FState) (clicked : String) : FState :=
  { s with level := if s.level = clicked then "All" else clicked }

/-- Toggle core of handle_click_subject (app.py line 361). -/
def clickSubjectCore (s : FState) (clicked : String) : FState :=
  { s with subject := if s.subject = clicked then "All" else clicked }

/-- The truncation of app.py lines 347-348: a string longer than 7 chars
whose char at index 4 is a dash is cut to its first 7 chars. -/
def truncateClick (c : String) : String :=
  if c.length > 7 ∧ c.toList.getD 4 ' ' = '-' then String.mk (c.toList.take 7)
  else c

/-- Drill-down core of handle_click_time (app.py lines 345-355): truncate
the clicked x value, then in Quarter mode set the filter and descend to
Month mode, otherwise toggle the month filter. -/
def clickTimeCore (s : FState) (clicked0 : String) : FState :=
  let clicked := truncateClick clicked0
  if s.view_mode = "Quarter" then
    { s with time := clicked, view_mode := "Month" }
  else
    { s with time := if s.time = clicked then "All" else clicked }

/-- handle_click_grade (app.py lines 330-335).  The guard admits a payload
with an empty points list, and indexing points[0] then raises IndexError,
modelled as the error branch; the state is unchanged in that case because
the assignment is never reached. -/
def handle_click_grade (s : FState) (e : EvtArgs) : Except Unit FState :=
  match e with
  | .empty => .ok s
  | .noPoints => .ok s
  | .points [] => .error ()
  | .points (c :: _) => .ok (clickGradeCore s c)

/-- handle_click_level (app.py lines 337-341). -/
def handle_click_level (s : FState) (e : EvtArgs) : Except Unit FState :=
  match e with
  | .empty => .ok s
  | .noPoints => .ok s
  | .points [] => .error ()
  | .points (c :: _) => .ok (clickLevelCore s c)

/-- handle_click_time (app.py lines 343-356). -/
def handle_click_time (s : FState) (e : EvtArgs) : Except Unit FState :=
  match e with
  | .empty => .ok s
  | .noPoints => .ok s
  | .points [] => .error ()
  | .points (c :: _) => .ok (clickTimeCore s c)

/-- handle_click_subject (app.py lines 358-362). -/
def handle_click_subject (s : FState) (e : EvtArgs) : Except Unit FState :=
  match e with
  | .empty => .ok s
  | .noPoints => .ok s
  | .points [] => .error ()
  | .points (c :: _) => .ok (clickSubjectCore s c)

/-- reset_filters (app.py lines 317-327): all filters back to "All", view
mode back to Quarter. -/
def reset_filters (s : FState) : FState :=
  { s with
    grade := "All"
    level := "All"
    time := "All"
    subject := "All"
    view_mode := "Quarter" }

/-- on_view_change (app.py lines 371-373). -/
def on_view_change (s : FState) (m : String) : FState :=
  { s with view_mode := m }

/-- The external events the engine consumes (spec section 9 event enum). -/
inductive Event where
  | gradeClick : EvtArgs → Event
  | levelClick : EvtArgs → Event
  | timeClick : EvtArgs → Event
  | subjectClick : EvtArgs → Event
  | viewToggle : String → Event
  | reset : Event
deriving DecidableEq

/-- Recover from a handler exception: a raised IndexError leaves the state
as it was (the assignment in the handler is never reached). -/
def recover (s : FState) : Except Unit FState → FState
  | .ok s' => s'
  | .error _ => s

/-- The whole mutable store: the module-level Fact Table df plus the filter
state dict. -/
structure Global where
  table : List Row
  st : FState
deriving DecidableEq

/-- One external event processed by the interaction controller.  Every
handler only writes the filter state; the recompute path (get_data and the
render functions) only reads df via filtered copies, so the table component
passes through untouched — exactly as in the source, where df is never
reassigned after load. -/
def stepEvent (g : Global) (ev : Event) : Global :=
  match ev with
  | .gradeClick e => { g with st := recover g.st (handle_click_grade g.st e) }
  | .levelClick e => { g with st := recover g.st (handle_click_level g.st e) }
  | .timeClick e => { g with st := recover g.st (handle_click_time g.st e) }
  | .subjectClick e => { g with st := recover g.st (handle_click_subject g.st e) }
  | .viewToggle m => { g with st := on_view_change g.st m }
  | .reset => { g with st := reset_filters g.st }

end Dashboard

namespace Dashboard

/-! Sample data used by the concrete-scenario claim and the witnesses. -/

/-- Sample row: score 90, weight 1. -/
def r90 : Row :=
  { studentId := 1, gradeLevel := "G9", subjectName := "Math", quarterLabel := "2023 Q1", monthLabel := "2023-01", score := 90, weight := 1 }

/-- Sample row: score 60, weight 1. -/
def r60 : Row :=
  { studentId := 2, gradeLevel := "G9", subjectName := "Math", quarterLabel := "2023 Q1", monthLabel := "2023-02", score := 60, weight := 1 }

/-- Sample row: score 40, weight 1. -/
def r40 : Row :=
  { studentId := 3, gradeLevel := "G10", subjectName := "Art", quarterLabel := "2023 Q2", monthLabel := "2023-04", score := 40, weight := 1 }

/-- The three-row dataset of the spec scenario: scores 90, 60, 40, all weights 1. -/
def table3 : List Row := [r90, r60, r40]

/-- C1: calling get_data with all four dimensions in the ignore set returns
exactly the unfiltered Fact Table row set, for every Filter State (whatever
the grade, level, subject, time filters and view mode hold). -/
theorem c1_ignore_all_yields_base (table : List Row) (s : FState) :
    get_data table s true true true true = table := rfl

/-- C3: for each of the grade, level and subject dimensions, a click on v
toggles the filter: to "All" when it already equals v, to v otherwise; two
consecutive clicks on the same v from a state whose filter differs from v
return the filter to "All". -/
theorem c3_toggle_roundtrip (s : FState) (v : String) :
    handle_click_grade s (.points [v]) = .ok (clickGradeCore s v)
    ∧ handle_click_level s (.points [v]) = .ok (clickLevelCore s v)
    ∧ handle_click_subject s (.points [v]) = .ok (clickSubjectCore s v)
    ∧ (s.grade = v → (clickGradeCore s v).grade = "All")
    ∧ (s.grade ≠ v → (clickGradeCore s v).grade = v)
    ∧ (s.grade ≠ v → (clickGradeCore (clickGradeCore s v) v).grade = "All")
    ∧ (s.level = v → (clickLevelCore s v).level = "All")
    ∧ (s.level ≠ v → (clickLevelCore s v).level = v)
    ∧ (s.level ≠ v → (clickLevelCore (clickLevelCore s v) v).level = "All")
    ∧ (s.subject = v → (clickSubjectCore s v).subject = "All")
    ∧ (s.subject ≠ v → (clickSubjectCore s v).subject = v)
    ∧ (s.subject ≠ v → (clickSubjectCore (clickSubjectCore s v) v).subject = "All") := by
  refine ⟨rfl, rfl, rfl, ?_, ?_, ?_, ?_, ?_, ?_, ?_, ?_, ?_⟩ <;> intro h <;>
    simp [clickGradeCore, clickLevelCore, clickSubjectCore, h]

/-- Witness for C3 at concrete inputs: a grade click on "A" from the initial
state selects "A", and a second identical click (likewise for level "G9"
and subject "Math") returns the filter to "All". -/
theorem c3_toggle_roundtrip_witness :
    (clickGradeCore initState "A").grade = "A"
    ∧ (clickGradeCore (clickGradeCore initState "A") "A").grade = "All"
    ∧ (clickLevelCore (clickLevelCore initState "G9") "G9").level = "All"
    ∧ (clickSubjectCore (clickSubjectCore initState "Math") "Math").subject = "All" := by
  obtain ⟨-, -, -, -, hg2, hg3, -, -, -, -, -, -⟩ := c3_toggle_roundtrip initState "A"
  obtain ⟨-, -, -, -, -, -, -, -, hl3, -, -, -⟩ := c3_toggle_roundtrip initState "G9"
  obtain ⟨-, -, -, -, -, -, -, -, -, -, -, hs3⟩ := c3_toggle_roundtrip initState "Math"
  exact ⟨hg2 (by decide), hg3 (by decide), hl3 (by decide), hs3 (by decide)⟩

/-- C8 counterexample: a click event whose args carry an empty points list
passes the guard of handle_click_grade and the indexing points[0] raises
(IndexError), so the handler is not a no-op for that malformed payload. -/
theorem c8_counterexample : handle_click_grade initState (EvtArgs.points []) = Except.error () := rfl

/-- C8 (amended): for click payloads with falsy args or args lacking a
points entry, all four handlers are no-ops (state unchanged, no error); a
payload whose points list is empty instead raises an IndexError before any
state mutation is reached. -/
theorem c8_amended_noop (s : FState) (e : EvtArgs)
    (h : e = EvtArgs.empty ∨ e = EvtArgs.noPoints) :
    handle_click_grade s e = .ok s ∧ handle_click_level s e = .ok s
    ∧ handle_click_time s e = .ok s ∧ handle_click_subject s e = .ok s
    ∧ handle_click_grade s (.points []) = .error ()
    ∧ handle_click_level s (.points []) = .error ()
    ∧ handle_click_time s (.points []) = .error ()
    ∧ handle_click_subject s (.points []) = .error () := by
  rcases h with h | h <;> subst h <;>
    exact ⟨rfl, rfl, rfl, rfl, rfl, rfl, rfl, rfl⟩

/-- Witness for C8 (amended) at the initial state and an empty-args event. -/
theorem c8_amended_noop_witness :
    handle_click_grade initState EvtArgs.empty = .ok initState
    ∧ handle_click_level initState EvtArgs.empty = .ok initState
    ∧ handle_click_time initState EvtArgs.empty = .ok initState
    ∧ handle_click_subject initState EvtArgs.empty = .ok initState
    ∧ handle_click_grade initState (.points []) = .error ()
    ∧ handle_click_level initState (.points []) = .error ()
    ∧ handle_click_time initState (.points []) = .error ()
    ∧ handle_click_subject initState (.points []) = .error () :=
  c8_amended_noop initState EvtArgs.empty (Or.inl rfl)

/-- Each single event leaves the Fact Table component untouched: the
handlers only write the filter state, and the recompute path reads df only
through filtered copies. -/
theorem stepEvent_table (g : Global) (ev : Event) : (stepEvent g ev).table = g.table := by
  cases ev <;> rfl

/-- C10: processing any sequence of external events (clicks, view toggles,
resets) leaves the global Fact Table contents unchanged. -/
theorem c10_fact_table_frame (g : Global) (evs : List Event) :
    (evs.foldl stepEvent g).table = g.table := by
  induction evs generalizing g with
  | nil => rfl
  | cons e l ih => rw [List.foldl_cons, ih, stepEvent_table]

end Dashboard

namespace Dashboard

/-- C2: in Quarter mode, a time-chart click on a quarter bucket label sets
timeFilter to the clicked label and viewMode to Month (never toggling off,
whatever the current timeFilter), and the time chart of the resulting state
shows exactly the rows of the time-ignoring view whose quarter label equals
the clicked quarter. -/
theorem c2_quarter_click_drilldown (table : List Row) (s : FState)
    (clicked : String) (rest : List String)
    (hq : s.view_mode = "Quarter")
    (ht : truncateClick clicked = clicked)
    (hQ : clicked.contains 'Q' = true) :
    handle_click_time s (.points (clicked :: rest)) = .ok (clickTimeCore s clicked)
    ∧ (clickTimeCore s clicked).time = clicked
    ∧ (clickTimeCore s clicked).view_mode = "Month"
    ∧ render_time_rows table (clickTimeCore s clicked)
      = (get_data table (clickTimeCore s clicked) false false true false).filter
          (fun r => r.quarterLabel == clicked) := by
  have hAllQ : ("All" : String).contains 'Q' = false := by with_unfolding_all rfl
  have hA : clicked ≠ "All" := by
    intro h; rw [h, hAllQ] at hQ; exact Bool.noConfusion hQ
  have hs : clickTimeCore s clicked = { s with time := clicked, view_mode := "Month" } := by
    simp [clickTimeCore, ht, hq]
  refine ⟨rfl, by rw [hs], by rw [hs], ?_⟩
  rw [hs]
  simp [render_time_rows, hA, hQ]

/-- Witness for C2: clicking quarter bucket "2023 Q1" from the initial state
over the three-row sample table. -/
theorem c2_quarter_click_drilldown_witness :
    handle_click_time initState (.points ["2023 Q1"])
      = .ok (clickTimeCore initState "2023 Q1")
    ∧ (clickTimeCore initState "2023 Q1").time = "2023 Q1"
    ∧ (clickTimeCore initState "2023 Q1").view_mode = "Month"
    ∧ render_time_rows table3 (clickTimeCore initState "2023 Q1")
      = (get_data table3 (clickTimeCore initState "2023 Q1") false false true false).filter
          (fun r => r.quarterLabel == "2023 Q1") :=
  c2_quarter_click_drilldown table3 initState "2023 Q1" [] rfl
    (by with_unfolding_all rfl) (by with_unfolding_all rfl)

/-- C4: whenever the fully-filtered view (empty ignore set) has zero rows,
the KPI block outputs exactly 0.00 / 0.00% / 0.00% / 0.0% without entering
the branch that divides by the row count. -/
theorem c4_empty_view_kpis (table : List Row) (s : FState)
    (h : get_data table s false false false false = []) :
    render_kpis table s = ("0.00", "0.00%", "0.00%", "0.0%") := by
  simp [render_kpis, h]

/-- Witness for C4: a level filter matching no row of the sample table. -/
theorem c4_empty_view_kpis_witness :
    render_kpis table3 { initState with level := "G12" }
      = ("0.00", "0.00%", "0.00%", "0.0%") :=
  c4_empty_view_kpis table3 { initState with level := "G12" }
    (by with_unfolding_all rfl)

end Dashboard

namespace Dashboard

/-- C5: on a non-empty fully-filtered view the weighted-average KPI shows
sum(WeightedScore)/sum(Weight) when sum(Weight) > 0 and 0 otherwise,
multiplied by 100 exactly when the ratio is at most 1 and unmodified
otherwise. -/
theorem c5_weighted_avg (table : List Row) (s : FState)
    (h : get_data table s false false false false ≠ []) :
    (render_kpis table s).2.1 =
      (let d := get_data table s false false false false
       let w_sum := (d.map (·.weight)).sum
       let val_w := if w_sum > 0 then (d.map weightedScore).sum / w_sum else 0
       fmt2 (if val_w ≤ 1 then val_w * 100 else val_w) ++ "%") := by
  simp [render_kpis, h]

/-- Witness for C5 at the three-row sample table, fully unfiltered. -/
theorem c5_weighted_avg_witness :
    (render_kpis table3 initState).2.1 =
      (let d := get_data table3 initState false false false false
       let w_sum := (d.map (·.weight)).sum
       let val_w := if w_sum > 0 then (d.map weightedScore).sum / w_sum else 0
       fmt2 (if val_w ≤ 1 then val_w * 100 else val_w) ++ "%") :=
  c5_weighted_avg table3 initState (by
    rw [show get_data table3 initState false false false false = table3 from by
      with_unfolding_all rfl]
    simp [table3])

/-- The max-score fold of the code exceeds 1 exactly when some row of the
table has score above 1. -/
theorem dfScoreMax_gt_one_iff (rows : List Row) :
    1 < dfScoreMax rows ↔ ∃ r ∈ rows, 1 < r.score := by
  induction rows with
  | nil => simp [dfScoreMax]
  | cons a l ih =>
      simp only [dfScoreMax, List.foldr_cons] at ih ⊢
      rw [lt_max_iff, ih]
      simp

/-- C6: on a non-empty fully-filtered view the perfect-score KPI compares
each score for exact equality against a target that is 100 exactly when some
row of the entire unfiltered Fact Table scores above 1, and 1 otherwise, and
shows count(score = target)/count(rows)*100. -/
theorem c6_perfect_rate (table : List Row) (s : FState)
    (h : get_data table s false false false false ≠ []) :
    (render_kpis table s).2.2.2 =
      (let target : ℚ := if ∃ r ∈ table, 1 < r.score then 100 else 1
       let d := get_data table s false false false false
       fmt1 (((d.filter (fun r => r.score == target)).length : ℚ) / d.length * 100)
         ++ "%") := by
  have htarget : (if dfScoreMax table > 1 then (100 : ℚ) else 1)
      = (if ∃ r ∈ table, 1 < r.score then (100 : ℚ) else 1) :=
    if_congr (by rw [gt_iff_lt, dfScoreMax_gt_one_iff]) rfl rfl
  simp only [render_kpis, htarget]
  simp [h]

/-- Witness for C6 at the three-row sample table, fully unfiltered. -/
theorem c6_perfect_rate_witness :
    (render_kpis table3 initState).2.2.2 =
      (let target : ℚ := if ∃ r ∈ table3, 1 < r.score then 100 else 1
       let d := get_data table3 initState false false false false
       fmt1 (((d.filter (fun r => r.score == target)).length : ℚ) / d.length * 100)
         ++ "%") :=
  c6_perfect_rate table3 initState (by
    rw [show get_data table3 initState false false false false = table3 from by
      with_unfolding_all rfl]
    simp [table3])

/-- C7: in Month mode with a month-shaped timeFilter (contains a dash, no
Q), the time chart restricts the time-ignoring view to the parent quarter of
the first Fact Table row carrying that month label, and when no row matches
it fails open, leaving the view unrestricted. -/
theorem c7_month_parent_quarter (table : List Row) (s : FState)
    (hm : s.view_mode = "Month")
    (h1 : s.time.contains '-' = true)
    (h2 : s.time.contains 'Q' = false) :
    (table.find? (fun r => r.monthLabel == s.time) = none →
      render_time_rows table s = get_data table s false false true false)
    ∧ ∀ m, table.find? (fun r => r.monthLabel == s.time) = some m →
      render_time_rows table s
        = (get_data table s false false true false).filter
            (fun r => r.quarterLabel == m.quarterLabel) := by
  have hAllD : ("All" : String).contains '-' = false := by with_unfolding_all rfl
  have hA : s.time ≠ "All" := by
    intro h; rw [h, hAllD] at h1; exact Bool.noConfusion h1
  constructor
  · intro hn
    simp [render_time_rows, hm, hA, h1, h2, hn]
  · intro m hfind
    simp [render_time_rows, hm, hA, h1, h2, hfind]

/-- Witness for C7 at the sample table with month filter "2023-02": the
first matching row is the score-60 row, whose parent quarter is "2023 Q1". -/
theorem c7_month_parent_quarter_witness :
    render_time_rows table3 { initState with view_mode := "Month", time := "2023-02" }
      = (get_data table3 { initState with view_mode := "Month", time := "2023-02" }
          false false true false).filter
          (fun r => r.quarterLabel == r60.quarterLabel) :=
  (c7_month_parent_quarter table3
      { initState with view_mode := "Month", time := "2023-02" }
      rfl (by with_unfolding_all rfl) (by with_unfolding_all rfl)).2
    r60 (by with_unfolding_all rfl)

/-- C9: on the three-row dataset with scores 90, 60, 40 and weights 1, fully
unfiltered: the average-score KPI is 63.33, the pass-rate KPI is 66.67%
(pass means score at least 55), the derived letter grades are A, D, F, and
the grade-distribution buckets hold exactly one exam each for A, D, F and
none for B, C. -/
theorem c9_three_row_scenario :
    (render_kpis table3 initState).1 = "63.33"
    ∧ (render_kpis table3 initState).2.2.1 = "66.67%"
    ∧ get_grade 90 = "A" ∧ get_grade 60 = "D" ∧ get_grade 40 = "F"
    ∧ passedScore r90 = "Pass" ∧ passedScore r60 = "Pass" ∧ passedScore r40 = "Fail"
    ∧ gradeDistCount table3 initState "A" = 1
    ∧ gradeDistCount table3 initState "B" = 0
    ∧ gradeDistCount table3 initState "C" = 0
    ∧ gradeDistCount table3 initState "D" = 1
    ∧ gradeDistCount table3 initState "F" = 1 := by
  refine ⟨?_, ?_, ?_, ?_, ?_, ?_, ?_, ?_, ?_, ?_, ?_, ?_, ?_⟩ <;>
    with_unfolding_all rfl

end Dashboard
